import Mathlib

/-!
Verification development for the `chrome-mv3-uncached-favicons` extension.

The repository has two JavaScript variants of the same favicon tooling:
the demo file (`makeIconTester` with `testIcon`) and `popup.js`
(`makeIconLoader` with `initIcon`).  Both rasterize a candidate icon
image onto a fixed-size offscreen canvas, serialize it with
`canvas.toDataURL()`, and compare the string against the serialization
of the icon served for an empty domain (the browser's "missing favicon"
placeholder).  `popup.js` additionally shares `getDomains` (bookmark
tree walk), `countBookmarks` and `fetchFavIcon` (tab-update/timeout
race) with the demo file.

The embedding below models the browser facilities the code uses
(image elements, the 2d canvas, load-event listeners, the favicon URL
convention, tab update events and timers) and translates each source
function on top of them.  Pixels are `Nat`s; `toDataURL` is modelled as
a fixed prefix followed by a lossless textual dump of the sampled pixel
grid, which is deterministic per grid exactly like a real PNG data URL.
-/

/-- An `HTMLImageElement`: raster content plus its load state
(`complete`).  `pix x y` is the pixel at column `x`, row `y`. -/
structure ImageEl where
  width : Nat
  height : Nat
  pix : Nat → Nat → Nat
  complete : Bool

/-- An offscreen 2d canvas backing store.  The context was created with
`alpha: false`, so a cleared canvas holds opaque black, written `0`. -/
structure Canvas where
  width : Nat
  height : Nat
  data : Nat → Nat → Nat

/-- Model of `context.clearRect(0, 0, canvas.width, canvas.height)`: reset every
pixel to the background value. -/
def Canvas.clearRect (c : Canvas) : Canvas :=
  { c with data := fun _ _ => 0 }

/-- Model of `context.drawImage(image, dx, dy)`: blit the image at offset
`(dx, dy)`; destination pixels outside the canvas are clipped away,
pixels the image does not cover keep their previous value. -/
def Canvas.drawImage (c : Canvas) (image : ImageEl) (dx dy : Nat) : Canvas :=
  { c with data := fun x y =>
      if dx ≤ x ∧ x < dx + image.width ∧ dy ≤ y ∧ y < dy + image.height then
        image.pix (x - dx) (y - dy)
      else
        c.data x y }

/-- Model of `canvas.toDataURL()`: a deterministic, lossless serialization of the
canvas pixel grid, prefixed like a PNG data URL. -/
def Canvas.toDataURL (c : Canvas) : String :=
  "data:image/png;base64," ++
    toString ((List.range c.height).map (fun y =>
      (List.range c.width).map (fun x => c.data x y)))

/-- The hosting browser as the code observes it: the extension id used
by `chrome.runtime.getURL`, the resolver that turns a URL into the image
the browser serves for it, and ambient state (randomness, clock) that a
deterministic function must not depend on. -/
structure Host where
  extensionId : String
  resolveImage : String → ImageEl
  rand : Nat
  now : Nat

/-- One hex digit (uppercase), for percent-escapes. -/
def hexDigit (n : Nat) : Char :=
  if n < 10 then Char.ofNat (48 + n) else Char.ofNat (55 + n)

/-- The `URLSearchParams` percent-escaping of a single character
(application/x-www-form-urlencoded serializer). -/
def formEncodeChar (c : Char) : String :=
  if c.isAlphanum || c == '-' || c == '.' || c == '_' || c == '*' then
    String.singleton c
  else if c == ' ' then "+"
  else String.mk ['%', hexDigit (c.toNat / 16 % 16), hexDigit (c.toNat % 16)]

/-- Percent-escape a whole string, character by character. -/
def formEncode (s : String) : String :=
  String.join (s.data.map formEncodeChar)

/-- Source `getIconUrl(domain)` from both factories: build
`chrome-extension://EXTENSION_ID/_favicon/?pageUrl=https%3A%2F%2Fdomain&size=N`
via `new URL(chrome.runtime.getURL('/_favicon/'))` and
`url.searchParams.set`. -/
def getIconUrl (extensionId : String) (size : Nat) (domain : String) : String :=
  "chrome-extension://" ++ extensionId ++ "/_favicon/?pageUrl=" ++
    formEncode ("https://" ++ domain) ++ "&size=" ++ toString size

/-- Source `loadImage(url)`: create an `img` with the given `src` and wait for
its `load` event; the resolved element is fully loaded. -/
def loadImage (h : Host) (url : String) : ImageEl :=
  { h.resolveImage url with complete := true }

/-- The image the browser serves for the empty-domain icon request used
during calibration. -/
def placeholderImage (h : Host) (size : Nat) : ImageEl :=
  loadImage h (getIconUrl h.extensionId size "")

/-- Tags for the load-event listeners the code registers. -/
inductive Handler where
  | onLoadTest
deriving DecidableEq

/-- An image element together with its currently registered `load`
listeners. -/
structure ImgState where
  el : ImageEl
  listeners : List Handler

/-- State of one `makeIconTester` instance (demo file): the private
canvas and the module-scoped `missingData`, initialized to `''`. -/
structure IconTester where
  canvas : Canvas
  missingData : String

/-- Source `makeIconTester(size)`: fresh canvas of `size × size`,
`missingData = ''`. -/
def makeIconTester (size : Nat) : IconTester :=
  { canvas := { width := size, height := size, data := fun _ _ => 0 }
    missingData := "" }

/-- Demo `getDataUrl(image)`: clear the canvas, then
`context.drawImage(image, canvas.width, 0)` — note the x-offset of
`canvas.width` taken verbatim from the source — then serialize. -/
def IconTester.getDataUrl (t : IconTester) (image : ImageEl) : String × IconTester :=
  let c := (t.canvas.clearRect).drawImage image t.canvas.width 0
  (c.toDataURL, { t with canvas := c })

/-- Demo `compareImage(image)`: serialize and compare against the
stored `missingData` with exact string equality. -/
def IconTester.compareImage (t : IconTester) (image : ImageEl) : Bool × IconTester :=
  let (imageData, t') := t.getDataUrl image
  (imageData == t.missingData, t')

/-- Demo `init()`: load the empty-domain icon request and store its
serialization as `missingData`. -/
def IconTester.init (t : IconTester) (h : Host) : IconTester :=
  let missingImage := loadImage h (getIconUrl h.extensionId t.canvas.width "")
  let (d, t') := t.getDataUrl missingImage
  { t' with missingData := d }

/-- Demo `testIcon(image)`: when the image is `complete` resolve with
`compareImage` immediately; otherwise register the `onLoad` listener and
return a pending promise (`none`). -/
def IconTester.testIcon (t : IconTester) (i : ImgState) : Option Bool × IconTester × ImgState :=
  if i.el.complete then
    let (v, t') := t.compareImage i.el
    (some v, t', i)
  else
    (none, t, { i with listeners := i.listeners ++ [Handler.onLoadTest] })

/-- The image's `load` event fires (demo variant): the image becomes
complete; if the `onLoad` listener is registered it first removes itself
and then resolves with `compareImage`. -/
def IconTester.fireLoad (t : IconTester) (i : ImgState) : Option Bool × IconTester × ImgState :=
  let el := { i.el with complete := true }
  if Handler.onLoadTest ∈ i.listeners then
    let (v, t') := t.compareImage el
    (some v, t', { el := el, listeners := i.listeners.erase Handler.onLoadTest })
  else
    (none, t, { el := el, listeners := i.listeners })

/-- State of one `makeIconLoader` instance (`popup.js`): the private
canvas and `missingData`, which starts out `undefined` (`none`). -/
structure IconLoader where
  canvas : Canvas
  missingData : Option String

/-- Source `makeIconLoader(size)`: fresh canvas, `missingData` undefined. -/
def makeIconLoader (size : Nat) : IconLoader :=
  { canvas := { width := size, height := size, data := fun _ _ => 0 }
    missingData := none }

/-- Popup `getDataUrl(image)`: clear, `context.drawImage(image, 0, 0)`,
serialize. -/
def IconLoader.getDataUrl (l : IconLoader) (image : ImageEl) : String × IconLoader :=
  let c := (l.canvas.clearRect).drawImage image 0 0
  (c.toDataURL, { l with canvas := c })

/-- Popup `testImage(image)`: serialize and compare against
`missingData`; comparing a string against `undefined` is `false`. -/
def IconLoader.testImage (l : IconLoader) (image : ImageEl) : Bool × IconLoader :=
  let (imageData, l') := l.getDataUrl image
  (match l.missingData with
   | none => false
   | some m => imageData == m, l')

/-- Popup `init()`: load the empty-domain icon request and store its
serialization as `missingData`. -/
def IconLoader.init (l : IconLoader) (h : Host) : IconLoader :=
  let missingImage := loadImage h (getIconUrl h.extensionId l.canvas.width "")
  let (d, l') := l.getDataUrl missingImage
  { l' with missingData := some d }

/-- Popup `initIcon(image)`: always register the `onLoad` listener —
the source has no `image.complete` fast path — and return a pending
promise. -/
def IconLoader.initIcon (l : IconLoader) (i : ImgState) : Option Bool × IconLoader × ImgState :=
  (none, l, { i with listeners := i.listeners ++ [Handler.onLoadTest] })

/-- The image's `load` event fires (popup variant): the registered
`onLoad` listener removes itself and resolves with `testImage`. -/
def IconLoader.fireLoad (l : IconLoader) (i : ImgState) : Option Bool × IconLoader × ImgState :=
  let el := { i.el with complete := true }
  if Handler.onLoadTest ∈ i.listeners then
    let (v, l') := l.testImage el
    (some v, l', { el := el, listeners := i.listeners.erase Handler.onLoadTest })
  else
    (none, l, { el := el, listeners := i.listeners })

/-- The serialization the demo `getDataUrl` produces on a `w × h`
canvas: image drawn at x-offset `w` (off-canvas). -/
def demoSample (w h : Nat) (image : ImageEl) : String :=
  (((Canvas.mk w h (fun _ _ => 0)).clearRect).drawImage image w 0).toDataURL

/-- The serialization the popup `getDataUrl` produces on a `w × h`
canvas: image drawn at the origin. -/
def popupSample (w h : Nat) (image : ImageEl) : String :=
  (((Canvas.mk w h (fun _ _ => 0)).clearRect).drawImage image 0 0).toDataURL

/-- A Chrome bookmark tree node: either a bookmark carrying a URL or a
folder carrying children. -/
inductive BNode where
  | leaf (url : String)
  | folder (children : List BNode)

/-- Characters after the `://` scheme separator of a URL (everything
when no separator occurs). -/
def afterSchemeSep : List Char → List Char
  | [] => []
  | ':' :: '/' :: '/' :: rest => rest
  | _ :: rest => afterSchemeSep rest

/-- Characters that may still belong to the host component. -/
def hostChar (c : Char) : Bool :=
  c != '/' && c != ':' && c != '?' && c != '#'

/-- Model of `new URL(s).protocol` for the simple absolute URLs bookmarks carry:
the scheme up to the first `:`, plus the `:`. -/
def urlProtocol (s : String) : String :=
  String.mk (s.data.takeWhile (fun c => c != ':')) ++ ":"

/-- Model of `new URL(s).hostname` for the simple absolute URLs bookmarks carry:
what follows `://`, up to the first `/`, `:`, `?` or `#`. -/
def urlHostname (s : String) : String :=
  String.mk ((afterSchemeSep s.data).takeWhile hostChar)

/-- Model of `Set.prototype.add` on an insertion-ordered string set represented
as a duplicate-free list. -/
def addUnique (ds : List String) (d : String) : List String :=
  if d ∈ ds then ds else ds ++ [d]

mutual

/-- Source `getDomains(bookmark, limit, _domains)`: stop once the set reached
`limit`; for a bookmark node with a (truthy) URL add its hostname iff
the protocol is `https:`; for a folder node recurse into the children,
threading the shared set. -/
def getDomains (limit : Nat) : BNode → List String → List String
  | BNode.leaf url, ds =>
    if ds.length ≥ limit then ds
    else if url ≠ "" then
      if ds.length < limit then
        if urlProtocol url = "https:" then addUnique ds (urlHostname url) else ds
      else ds
    else ds
  | BNode.folder cs, ds =>
    if ds.length ≥ limit then ds
    else getDomainsChildren limit cs ds

/-- The `for (bookmark of bookmark.children)` loop inside
`getDomains`. -/
def getDomainsChildren (limit : Nat) : List BNode → List String → List String
  | [], ds => ds
  | c :: cs, ds => getDomainsChildren limit cs (getDomains limit c ds)

end

mutual

/-- All hostnames of HTTPS bookmarks of the tree, in traversal order,
duplicates included. -/
def httpsHosts : BNode → List String
  | BNode.leaf url =>
    if url ≠ "" ∧ urlProtocol url = "https:" then [urlHostname url] else []
  | BNode.folder cs => httpsHostsList cs

/-- The function `httpsHosts` mapped over a list of children. -/
def httpsHostsList : List BNode → List String
  | [] => []
  | c :: cs => httpsHosts c ++ httpsHostsList cs

end

/-- Insert a run of hostnames into the ordered set, with no size
bound. -/
def dedupAcc : List String → List String → List String
  | ds, [] => ds
  | ds, d :: hs => dedupAcc (addUnique ds d) hs

/-- Insert a run of hostnames into the ordered set, halting once the
set reached `limit` elements — the linearized behaviour of
`getDomains`. -/
def foldAdd (limit : Nat) : List String → List String → List String
  | ds, [] => ds
  | ds, d :: hs => if ds.length ≥ limit then ds else foldAdd limit (addUnique ds d) hs

/-- One `chrome.tabs.onUpdated` delivery: when it happened (ms after
the timer was armed), for which tab, and the tab's `favIconUrl` (`""`
models a missing/empty field, which is falsy). -/
structure TabEvent where
  time : Nat
  tabId : Nat
  favIconUrl : String

/-- Observable state of one `fetchFavIcon` call: whether the
`onUpdated` listener is still subscribed, whether the background tab
still exists, whether the timer is still pending, the promise value,
and how many times each teardown action ran. -/
structure RaceState where
  listenerActive : Bool
  tabAlive : Bool
  timerActive : Bool
  resolvedValue : Option String
  removeListenerCalls : Nat
  tabRemoveCalls : Nat
  clearTimeoutCalls : Nat
deriving DecidableEq

/-- Source `finish(favIconUrl)`: remove the `onUpdated` listener, remove the
tab, clear the timeout, and resolve the promise (only the first
`resolve` sticks). -/
def RaceState.finish (r : RaceState) (favIconUrl : String) : RaceState :=
  { listenerActive := false
    tabAlive := false
    timerActive := false
    resolvedValue := match r.resolvedValue with
      | none => some favIconUrl
      | some v => some v
    removeListenerCalls := r.removeListenerCalls + 1
    tabRemoveCalls := r.tabRemoveCalls + 1
    clearTimeoutCalls := r.clearTimeoutCalls + 1 }

/-- An occurrence on the event loop during the race: a tab-update
delivery or the armed timer firing. -/
inductive RaceEv where
  | update (tabId : Nat) (favIconUrl : String)
  | timer

/-- Dispatch one event-loop occurrence.  The `onUpdated` handler runs
only while subscribed and calls `finish(tab.favIconUrl)` when the update
is for the created tab and the favicon field is truthy; the timer
callback runs only if the timeout was not cleared and calls `finish()`
(defaulting the outcome to `''`). -/
def raceStep (id : Nat) (r : RaceState) : RaceEv → RaceState
  | RaceEv.update tabId fav =>
    if r.listenerActive && tabId == id && fav != "" then r.finish fav else r
  | RaceEv.timer =>
    if r.timerActive then r.finish "" else r

/-- View a tab-update delivery as an event-loop occurrence. -/
def toUpd (e : TabEvent) : RaceEv := RaceEv.update e.tabId e.favIconUrl

/-- State right after `fetchFavIcon`'s setup: tab created, timer armed,
listener subscribed, promise pending. -/
def initialRace : RaceState :=
  { listenerActive := true
    tabAlive := true
    timerActive := true
    resolvedValue := none
    removeListenerCalls := 0
    tabRemoveCalls := 0
    clearTimeoutCalls := 0 }

/-- The single-threaded event loop's order: updates delivered strictly
before `timeoutMs`, then the timer, then any later updates. -/
def schedule (timeoutMs : Nat) (events : List TabEvent) : List RaceEv :=
  (events.filter (fun e => decide (e.time < timeoutMs))).map toUpd ++
    RaceEv.timer :: (events.filter (fun e => decide (timeoutMs ≤ e.time))).map toUpd

/-- Source `fetchFavIcon(domain, timeout)` observed against a given stream of
tab updates: run every event-loop occurrence in order from the
just-set-up state. -/
def fetchFavIcon (id timeoutMs : Nat) (events : List TabEvent) : RaceState :=
  (schedule timeoutMs events).foldl (raceStep id) initialRace

/-- A tab update that makes the `onUpdated` handler call `finish`:
right tab, truthy favicon field. -/
def updWin (id : Nat) (e : TabEvent) : Bool :=
  e.tabId == id && e.favIconUrl != ""

/-- A tab update that wins the race: it matches and is delivered before
the timer fires. -/
def winPred (id timeoutMs : Nat) (e : TabEvent) : Bool :=
  decide (e.time < timeoutMs) && updWin id e

/-- The outcome the race produces: the favicon URL of the first winning
update, or `''` when no update wins before the timeout. -/
def firstWin (id timeoutMs : Nat) (events : List TabEvent) : String :=
  match events.filter (winPred id timeoutMs) with
  | [] => ""
  | e :: _ => e.favIconUrl

/-- The state after the race completed with outcome `v`: everything
torn down exactly once, promise resolved. -/
def finished (v : String) : RaceState :=
  { listenerActive := false
    tabAlive := false
    timerActive := false
    resolvedValue := some v
    removeListenerCalls := 1
    tabRemoveCalls := 1
    clearTimeoutCalls := 1 }

/-- A fully loaded 2×2 all-black icon image. -/
def blackImage2 : ImageEl :=
  { width := 2, height := 2, pix := fun _ _ => 0, complete := true }

/-- A fully loaded 2×2 icon image with one white-ish pixel at the
origin. -/
def dotImage2 : ImageEl :=
  { width := 2, height := 2, pix := fun x y => if x = 0 ∧ y = 0 then 1 else 0
    complete := true }

/-- A fully loaded 2×2 icon image with a different pixel value at the
origin. -/
def dotImage2b : ImageEl :=
  { width := 2, height := 2, pix := fun x y => if x = 0 ∧ y = 0 then 2 else 0
    complete := true }

/-- A host whose favicon endpoint always serves the all-black
placeholder. -/
def hostBlack : Host :=
  { extensionId := "abcdefgh", resolveImage := fun _ => blackImage2
    rand := 0, now := 0 }

/-- A host with some ambient randomness and clock value. -/
def hostA : Host :=
  { extensionId := "abcdefgh", resolveImage := fun _ => blackImage2
    rand := 3, now := 17 }

/-- A host sharing `hostA`'s extension id but differing in every other
ambient component. -/
def hostB : Host :=
  { extensionId := "abcdefgh", resolveImage := fun _ => dotImage2
    rand := 99, now := 4 }

/-- A fully loaded 1×1 black image. -/
def onePix : ImageEl :=
  { width := 1, height := 1, pix := fun _ _ => 0, complete := true }

/-- An already-complete image element with no listeners registered. -/
def imgComplete : ImgState :=
  { el := onePix, listeners := [] }

/-- The bookmark tree of the spec's worked example: four bookmarks,
two of them sharing the hostname `a.com`, one non-HTTPS. -/
def exampleTree : BNode :=
  BNode.folder [BNode.leaf "https://a.com", BNode.leaf "https://a.com/page2",
    BNode.leaf "http://b.com", BNode.leaf "https://c.com"]

theorem IconTester.getDataUrl_fst (t : IconTester) (image : ImageEl) :
    (t.getDataUrl image).1 = demoSample t.canvas.width t.canvas.height image := rfl

theorem IconTester.getDataUrl_snd_missingData (t : IconTester) (image : ImageEl) :
    (t.getDataUrl image).2.missingData = t.missingData := rfl

theorem IconTester.getDataUrl_snd_width (t : IconTester) (image : ImageEl) :
    (t.getDataUrl image).2.canvas.width = t.canvas.width := rfl

theorem IconTester.getDataUrl_snd_height (t : IconTester) (image : ImageEl) :
    (t.getDataUrl image).2.canvas.height = t.canvas.height := rfl

theorem IconTester.init_missingData (t : IconTester) (h : Host) :
    (t.init h).missingData =
      demoSample t.canvas.width t.canvas.height
        (loadImage h (getIconUrl h.extensionId t.canvas.width "")) := rfl

theorem IconTester.init_width (t : IconTester) (h : Host) :
    (t.init h).canvas.width = t.canvas.width := rfl

theorem IconTester.init_height (t : IconTester) (h : Host) :
    (t.init h).canvas.height = t.canvas.height := rfl

theorem IconTester.compareImage_fst (t : IconTester) (image : ImageEl) :
    (t.compareImage image).1 =
      (demoSample t.canvas.width t.canvas.height image == t.missingData) := rfl

theorem IconLoader.loader_getDataUrl_fst (l : IconLoader) (image : ImageEl) :
    (l.getDataUrl image).1 = popupSample l.canvas.width l.canvas.height image := rfl

theorem IconLoader.loader_init_missingData (l : IconLoader) (h : Host) :
    (l.init h).missingData =
      some (popupSample l.canvas.width l.canvas.height
        (loadImage h (getIconUrl h.extensionId l.canvas.width ""))) := rfl

theorem IconLoader.loader_init_width (l : IconLoader) (h : Host) :
    (l.init h).canvas.width = l.canvas.width := rfl

theorem IconLoader.loader_init_height (l : IconLoader) (h : Host) :
    (l.init h).canvas.height = l.canvas.height := rfl

theorem IconLoader.testImage_fst_of_some (l : IconLoader) (image : ImageEl) (m : String)
    (hm : l.missingData = some m) :
    (l.testImage image).1 = (popupSample l.canvas.width l.canvas.height image == m) := by
  obtain ⟨cv, md⟩ := l
  simp only at hm
  subst hm
  rfl

theorem IconLoader.testImage_fst_of_none (l : IconLoader) (image : ImageEl)
    (hm : l.missingData = none) :
    (l.testImage image).1 = false := by
  obtain ⟨cv, md⟩ := l
  simp only at hm
  subst hm
  rfl

theorem demoSample_eq (w h : Nat) (image image' : ImageEl) :
    demoSample w h image = demoSample w h image' := by
  unfold demoSample Canvas.toDataURL
  congr 2
  apply List.map_congr_left
  intro y hy
  apply List.map_congr_left
  intro x hx
  have hxw : x < w := List.mem_range.mp hx
  simp only [Canvas.drawImage, Canvas.clearRect]
  rw [if_neg, if_neg]
  · intro hc
    exact absurd hc.1 (Nat.not_le.mpr hxw)
  · intro hc
    exact absurd hc.1 (Nat.not_le.mpr hxw)

theorem Canvas.toDataURL_ne_empty (c : Canvas) : c.toDataURL ≠ "" := by
  unfold Canvas.toDataURL
  intro hcon
  have h2 := congrArg String.length hcon
  rw [String.length_append] at h2
  have h3 : ("data:image/png;base64,").length = 22 := rfl
  rw [h3] at h2
  simp at h2

theorem demoSample_ne_empty (w h : Nat) (image : ImageEl) : demoSample w h image ≠ "" :=
  Canvas.toDataURL_ne_empty _

theorem popupSample_ne_empty (w h : Nat) (image : ImageEl) : popupSample w h image ≠ "" :=
  Canvas.toDataURL_ne_empty _

theorem IconTester.compareImage_snd_missingData (t : IconTester) (image : ImageEl) :
    (t.compareImage image).2.missingData = t.missingData := rfl

theorem IconTester.compareImage_snd_width (t : IconTester) (image : ImageEl) :
    (t.compareImage image).2.canvas.width = t.canvas.width := rfl

theorem IconTester.compareImage_snd_height (t : IconTester) (image : ImageEl) :
    (t.compareImage image).2.canvas.height = t.canvas.height := rfl

/-- C7: after calibration, classifying an image loaded from the
placeholder-triggering (empty-domain) icon request yields verdict
`true`, in both the demo (`testIcon`) and popup (`testImage`)
classifiers. -/
theorem classify_placeholder_true (h : Host) (size : Nat) (ls : List Handler) :
    (((makeIconTester size).init h).testIcon
        { el := placeholderImage h size, listeners := ls }).1 = some true ∧
    (((makeIconLoader size).init h).testImage (placeholderImage h size)).1 = true := by
  constructor
  · have hc : (placeholderImage h size).complete = true := rfl
    simp [IconTester.testIcon, hc, IconTester.compareImage_fst,
      IconTester.init_missingData, IconTester.init_width, IconTester.init_height,
      placeholderImage, makeIconTester, loadImage]
  · rw [IconLoader.testImage_fst_of_some _ _ _ (IconLoader.loader_init_missingData _ _)]
    simp [IconLoader.loader_init_width, IconLoader.loader_init_height, placeholderImage, makeIconLoader]

/-- C9: classification of an already-loaded image is idempotent — a
second `testIcon` call on the same image, threading the classifier and
image state, returns the same verdict. -/
theorem testIcon_idempotent (t : IconTester) (i : ImgState)
    (hc : i.el.complete = true) :
    ((t.testIcon i).2.1.testIcon (t.testIcon i).2.2).1 = (t.testIcon i).1 := by
  simp [IconTester.testIcon, hc, IconTester.compareImage_fst,
    IconTester.compareImage_snd_missingData, IconTester.compareImage_snd_width,
    IconTester.compareImage_snd_height]

/-- C9 witness: the idempotence theorem applied at a concrete loaded
image. -/
theorem testIcon_idempotent_witness :
    imgComplete.el.complete = true ∧
    (((makeIconTester 1).testIcon imgComplete).2.1.testIcon
        ((makeIconTester 1).testIcon imgComplete).2.2).1 =
      ((makeIconTester 1).testIcon imgComplete).1 :=
  ⟨rfl, testIcon_idempotent (makeIconTester 1) imgComplete rfl⟩

/-- C10: classifying a loaded image before `init` ever ran returns
verdict `false` in both variants and throws nothing: the uninitialized
`missingData` (`''` in the demo, `undefined` in the popup) never equals
the non-empty data URL of a drawn image. -/
theorem classify_before_init_false (size : Nat) (image : ImageEl)
    (hc : image.complete = true) :
    ((makeIconTester size).testIcon { el := image, listeners := [] }).1 = some false ∧
    ((makeIconLoader size).testImage image).1 = false := by
  constructor
  · simp [IconTester.testIcon, hc, IconTester.compareImage_fst, makeIconTester]
    exact demoSample_ne_empty _ _ _
  · exact IconLoader.testImage_fst_of_none _ _ rfl

/-- C10 witness: the pre-calibration theorem applied at a concrete
loaded image. -/
theorem classify_before_init_false_witness :
    onePix.complete = true ∧
    ((makeIconTester 1).testIcon { el := onePix, listeners := [] }).1 = some false :=
  ⟨rfl, (classify_before_init_false 1 onePix rfl).1⟩

/-- C1 (code bug): after calibration the demo classifier returns
verdict `true` even for two fully loaded icons whose pixel content
differs from the placeholder and from each other — the demo
`getDataUrl` draws at x-offset `canvas.width`, entirely off-canvas, so
every raster sample equals the blank placeholder sample. -/
theorem offcanvas_draw_defeats_classifier :
    dotImage2.pix 0 0 = 1 ∧ dotImage2b.pix 0 0 = 2 ∧
    (((makeIconTester 2).init hostBlack).testIcon
        { el := dotImage2, listeners := [] }).1 = some true ∧
    (((makeIconTester 2).init hostBlack).testIcon
        { el := dotImage2b, listeners := [] }).1 = some true := by decide

/-- C2 counterexample: the popup classifier `initIcon`, handed an
already-complete image, does not compare immediately — it returns a
pending promise and registers a load listener anyway. -/
theorem initIcon_complete_registers :
    imgComplete.el.complete = true ∧
    imgComplete.listeners = [] ∧
    ((makeIconLoader 1).initIcon imgComplete).1 = none ∧
    ((makeIconLoader 1).initIcon imgComplete).2.2.listeners = [Handler.onLoadTest] := by
  decide

/-- C2 (amended): the demo `testIcon` compares immediately, with no
listener registered, when the image is complete, and otherwise
registers a single-shot load listener that is gone again right after
the load event fires and delivers the comparison; the popup `initIcon`
always registers such a single-shot listener, even for an
already-complete image, and only compares when a load event fires. -/
theorem classify_load_sync (t : IconTester) (l : IconLoader) (i : ImgState) :
    (i.el.complete = true →
      (t.testIcon i).1 = some (t.compareImage i.el).1 ∧ (t.testIcon i).2.2 = i) ∧
    (i.el.complete = false →
      (t.testIcon i).1 = none ∧
      (t.testIcon i).2.2.listeners = i.listeners ++ [Handler.onLoadTest] ∧
      (Handler.onLoadTest ∉ i.listeners →
        (t.fireLoad (t.testIcon i).2.2).2.2.listeners = i.listeners ∧
        ∃ v, (t.fireLoad (t.testIcon i).2.2).1 = some v)) ∧
    ((l.initIcon i).1 = none ∧
      (l.initIcon i).2.2.listeners = i.listeners ++ [Handler.onLoadTest] ∧
      (Handler.onLoadTest ∉ i.listeners →
        (l.fireLoad (l.initIcon i).2.2).2.2.listeners = i.listeners ∧
        ∃ v, (l.fireLoad (l.initIcon i).2.2).1 = some v)) := by
  refine ⟨fun h1 => ?_, fun h0 => ?_, ?_⟩
  · simp [IconTester.testIcon, h1]
  · refine ⟨by simp [IconTester.testIcon, h0], by simp [IconTester.testIcon, h0], fun hmem => ?_⟩
    have hin : Handler.onLoadTest ∈ i.listeners ++ [Handler.onLoadTest] := by simp
    constructor
    · simp [IconTester.testIcon, h0, IconTester.fireLoad, hin,
        List.erase_append_right _ hmem]
    · exact ⟨(t.compareImage { i.el with complete := true }).1,
        by simp [IconTester.testIcon, h0, IconTester.fireLoad, hin]⟩
  · refine ⟨rfl, rfl, fun hmem => ?_⟩
    have hin : Handler.onLoadTest ∈ i.listeners ++ [Handler.onLoadTest] := by simp
    constructor
    · simp [IconLoader.initIcon, IconLoader.fireLoad, hin,
        List.erase_append_right _ hmem]
    · exact ⟨(l.testImage { i.el with complete := true }).1,
        by simp [IconLoader.initIcon, IconLoader.fireLoad, hin]⟩

/-- C2 witness: the load-synchronization theorem applied to a concrete
complete image (immediate-comparison branch of the demo classifier). -/
theorem classify_load_sync_witness :
    imgComplete.el.complete = true ∧
    ((makeIconTester 1).testIcon imgComplete).1 =
      some ((makeIconTester 1).compareImage imgComplete.el).1 :=
  ⟨rfl, ((classify_load_sync (makeIconTester 1) (makeIconLoader 1) imgComplete).1 rfl).1⟩

/-- C8 counterexample: with the same calibration host and the same
loaded icon, the demo classifier's verdict is `true` while the popup
classifier's verdict (delivered when the load event fires) is `false` —
the two variants are not equivalent. -/
theorem variants_disagree :
    (((makeIconTester 2).init hostBlack).testIcon
        { el := dotImage2, listeners := [] }).1 = some true ∧
    ((((makeIconLoader 2).init hostBlack).initIcon
          { el := dotImage2, listeners := [] }).2.1.fireLoad
        (((makeIconLoader 2).init hostBlack).initIcon
          { el := dotImage2, listeners := [] }).2.2).1 = some false := by
  decide

/-- C8 (amended): the variants are not duplicates.  After calibration
the demo comparison returns `true` for every image (its `getDataUrl`
draws off-canvas), so the popup verdict being `true` implies the demo
verdict is `true`, but not conversely. -/
theorem demo_verdict_dominates (size : Nat) (h : Host) (image : ImageEl) :
    (((makeIconTester size).init h).compareImage image).1 = true ∧
    ((((makeIconLoader size).init h).testImage image).1 = true →
      (((makeIconTester size).init h).compareImage image).1 = true) := by
  have hd : (((makeIconTester size).init h).compareImage image).1 = true := by
    rw [IconTester.compareImage_fst, IconTester.init_width, IconTester.init_height,
      IconTester.init_missingData]
    rw [demoSample_eq (makeIconTester size).canvas.width (makeIconTester size).canvas.height
      image (loadImage h (getIconUrl h.extensionId (makeIconTester size).canvas.width ""))]
    exact beq_self_eq_true _
  exact ⟨hd, fun _ => hd⟩

/-- C8 witness: the dominance theorem applied at a concrete calibrated
state and image. -/
theorem demo_verdict_dominates_witness :
    (((makeIconTester 2).init hostBlack).compareImage dotImage2).1 = true :=
  (demo_verdict_dominates 2 hostBlack dotImage2).1

theorem raceStep_frozen (id : Nat) (r : RaceState) (hl : r.listenerActive = false)
    (ht : r.timerActive = false) (e : RaceEv) : raceStep id r e = r := by
  cases e with
  | update tabId fav => simp [raceStep, hl]
  | timer => simp [raceStep, ht]

theorem foldl_raceStep_frozen (id : Nat) (r : RaceState) (hl : r.listenerActive = false)
    (ht : r.timerActive = false) (l : List RaceEv) : l.foldl (raceStep id) r = r := by
  induction l with
  | nil => rfl
  | cons e l ih => rw [List.foldl_cons, raceStep_frozen id r hl ht e]; exact ih

theorem initialRace_finish (v : String) : initialRace.finish v = finished v := rfl

theorem run_updates (id : Nat) (es : List TabEvent) :
    (es.map toUpd).foldl (raceStep id) initialRace =
      match es.filter (updWin id) with
      | [] => initialRace
      | e :: _ => finished e.favIconUrl := by
  induction es with
  | nil => rfl
  | cons e es ih =>
    cases hw : updWin id e with
    | false =>
      have hstep : raceStep id initialRace (toUpd e) = initialRace := by
        simp only [raceStep, toUpd, initialRace, Bool.true_and]
        rw [show ((e.tabId == id && e.favIconUrl != "") = false) from hw]
        simp
      rw [List.map_cons, List.foldl_cons, hstep, ih, List.filter_cons]
      simp [hw]
    | true =>
      have hstep : raceStep id initialRace (toUpd e) = finished e.favIconUrl := by
        simp only [raceStep, toUpd, initialRace, Bool.true_and]
        rw [show ((e.tabId == id && e.favIconUrl != "") = true) from hw]
        rfl
      rw [List.map_cons, List.foldl_cons, hstep,
        foldl_raceStep_frozen id _ rfl rfl, List.filter_cons]
      simp [hw]

theorem filter_filter_win (id timeoutMs : Nat) (es : List TabEvent) :
    (es.filter (fun e => decide (e.time < timeoutMs))).filter (updWin id) =
      es.filter (winPred id timeoutMs) := by
  induction es with
  | nil => rfl
  | cons e es ih =>
    by_cases htime : e.time < timeoutMs
    · cases hw : updWin id e with
      | false => simp [List.filter_cons, htime, hw, winPred, ih]
      | true => simp [List.filter_cons, htime, hw, winPred, ih]
    · simp [List.filter_cons, htime, winPred, ih]

theorem fetchFavIcon_eq (id timeoutMs : Nat) (events : List TabEvent) :
    fetchFavIcon id timeoutMs events = finished (firstWin id timeoutMs events) := by
  unfold fetchFavIcon schedule firstWin
  rw [List.foldl_append, run_updates]
  rw [← filter_filter_win id timeoutMs events]
  cases hsplit : (events.filter (fun e => decide (e.time < timeoutMs))).filter (updWin id) with
  | nil =>
    rw [List.foldl_cons]
    have htimer : raceStep id initialRace RaceEv.timer = finished "" := rfl
    rw [htimer, foldl_raceStep_frozen id _ rfl rfl]
  | cons w rest =>
    rw [List.foldl_cons]
    have htimer : raceStep id (finished w.favIconUrl) RaceEv.timer = finished w.favIconUrl := by
      simp [raceStep, finished]
    rw [htimer, foldl_raceStep_frozen id _ rfl rfl]

/-- C3: `fetchFavIcon` resolves with the favicon URL of the first tab
update that matches the created tab and carries a non-empty
`favIconUrl` before the timeout, and resolves with the empty-string
sentinel (never an exception — the model is a total function into a
resolved state) when no such update arrives in time. -/
theorem fetchFavIcon_resolves (id timeoutMs : Nat) (events : List TabEvent) :
    (fetchFavIcon id timeoutMs events).resolvedValue = some (firstWin id timeoutMs events) := by
  rw [fetchFavIcon_eq]; rfl

/-- C4: on every completion of the `fetchFavIcon` race — favicon
discovered or timeout — the listener removal, tab removal and timeout
cancellation each run exactly once, and listener, tab and timer all end
deactivated, whatever tab updates were delivered. -/
theorem fetchFavIcon_teardown_once (id timeoutMs : Nat) (events : List TabEvent) :
    (fetchFavIcon id timeoutMs events).removeListenerCalls = 1 ∧
    (fetchFavIcon id timeoutMs events).tabRemoveCalls = 1 ∧
    (fetchFavIcon id timeoutMs events).clearTimeoutCalls = 1 ∧
    (fetchFavIcon id timeoutMs events).listenerActive = false ∧
    (fetchFavIcon id timeoutMs events).tabAlive = false ∧
    (fetchFavIcon id timeoutMs events).timerActive = false ∧
    ∃ v, (fetchFavIcon id timeoutMs events).resolvedValue = some v := by
  rw [fetchFavIcon_eq]
  exact ⟨rfl, rfl, rfl, rfl, rfl, rfl, firstWin id timeoutMs events, rfl⟩

theorem addUnique_length (ds : List String) (d : String) :
    (addUnique ds d).length ≤ ds.length + 1 := by
  by_cases hmem : d ∈ ds
  · simp [addUnique, hmem]
  · simp [addUnique, hmem]

theorem foldAdd_full (limit : Nat) (ds hs : List String) (h : limit ≤ ds.length) :
    foldAdd limit ds hs = ds := by
  cases hs with
  | nil => rfl
  | cons d hs => simp [foldAdd, h]

theorem foldAdd_append (limit : Nat) (ds hs1 hs2 : List String) :
    foldAdd limit ds (hs1 ++ hs2) = foldAdd limit (foldAdd limit ds hs1) hs2 := by
  induction hs1 generalizing ds with
  | nil => rfl
  | cons d hs1 ih =>
    by_cases hfull : ds.length ≥ limit
    · rw [List.cons_append]
      simp only [foldAdd, if_pos hfull]
      exact (foldAdd_full limit ds hs2 hfull).symm
    · rw [List.cons_append]
      simp only [foldAdd, if_neg hfull]
      exact ih (addUnique ds d)

mutual

theorem getDomains_eq_foldAdd (limit : Nat) (b : BNode) (ds : List String) :
    getDomains limit b ds = foldAdd limit ds (httpsHosts b) := by
  cases b with
  | leaf url =>
    simp only [getDomains, httpsHosts]
    by_cases hfull : ds.length ≥ limit
    · rw [if_pos hfull]
      split
      · exact (foldAdd_full limit ds _ hfull).symm
      · rfl
    · rw [if_neg hfull]
      have hlt : ds.length < limit := Nat.not_le.mp hfull
      by_cases hurl : url ≠ ""
      · by_cases hproto : urlProtocol url = "https:"
        · simp [hurl, hproto, hlt, foldAdd, hfull]
        · simp [hurl, hproto, foldAdd]
      · simp [hurl, foldAdd]
  | folder cs =>
    simp only [getDomains, httpsHosts]
    by_cases hfull : ds.length ≥ limit
    · rw [if_pos hfull]
      exact (foldAdd_full limit ds _ hfull).symm
    · rw [if_neg hfull]
      exact getDomainsChildren_eq_foldAdd limit cs ds

theorem getDomainsChildren_eq_foldAdd (limit : Nat) (cs : List BNode) (ds : List String) :
    getDomainsChildren limit cs ds = foldAdd limit ds (httpsHostsList cs) := by
  cases cs with
  | nil => rfl
  | cons c cs =>
    rw [show getDomainsChildren limit (c :: cs) ds =
        getDomainsChildren limit cs (getDomains limit c ds) from rfl]
    rw [getDomainsChildren_eq_foldAdd limit cs (getDomains limit c ds)]
    rw [getDomains_eq_foldAdd limit c ds]
    rw [show httpsHostsList (c :: cs) = httpsHosts c ++ httpsHostsList cs from rfl]
    exact (foldAdd_append limit ds _ _).symm

end

theorem dedupAcc_append (ds hs : List String) : ∃ t, dedupAcc ds hs = ds ++ t := by
  induction hs generalizing ds with
  | nil => exact ⟨[], by simp [dedupAcc]⟩
  | cons d hs ih =>
    obtain ⟨t, ht⟩ := ih (addUnique ds d)
    by_cases hmem : d ∈ ds
    · refine ⟨t, ?_⟩
      rw [show dedupAcc ds (d :: hs) = dedupAcc (addUnique ds d) hs from rfl, ht]
      simp [addUnique, hmem]
    · refine ⟨d :: t, ?_⟩
      rw [show dedupAcc ds (d :: hs) = dedupAcc (addUnique ds d) hs from rfl, ht]
      simp [addUnique, hmem]

theorem foldAdd_eq_take (limit : Nat) (hs ds : List String) (h : ds.length ≤ limit) :
    foldAdd limit ds hs = (dedupAcc ds hs).take limit := by
  induction hs generalizing ds with
  | nil => simp [foldAdd, dedupAcc, List.take_of_length_le h]
  | cons d hs ih =>
    by_cases hfull : ds.length ≥ limit
    · have hlen : ds.length = limit := Nat.le_antisymm h hfull
      obtain ⟨t, ht⟩ := dedupAcc_append ds (d :: hs)
      rw [show foldAdd limit ds (d :: hs) = ds from by simp [foldAdd, hfull]]
      rw [ht, ← hlen, List.take_left]
    · rw [show foldAdd limit ds (d :: hs) = foldAdd limit (addUnique ds d) hs from
        by simp [foldAdd, hfull]]
      rw [show dedupAcc ds (d :: hs) = dedupAcc (addUnique ds d) hs from rfl]
      apply ih
      have h1 := addUnique_length ds d
      have h2 : ds.length < limit := Nat.not_le.mp hfull
      omega

theorem addUnique_nodup (ds : List String) (d : String) (h : ds.Nodup) :
    (addUnique ds d).Nodup := by
  by_cases hmem : d ∈ ds
  · simpa [addUnique, hmem] using h
  · simp [addUnique, hmem, List.nodup_append, h]

theorem dedupAcc_nodup (ds hs : List String) (h : ds.Nodup) :
    (dedupAcc ds hs).Nodup := by
  induction hs generalizing ds with
  | nil => exact h
  | cons d hs ih => exact ih (addUnique ds d) (addUnique_nodup ds d h)

theorem dedupAcc_mem (ds hs : List String) (x : String) (hx : x ∈ dedupAcc ds hs) :
    x ∈ ds ∨ x ∈ hs := by
  induction hs generalizing ds with
  | nil => exact Or.inl hx
  | cons d hs ih =>
    rcases ih (addUnique ds d) hx with hmem | hmem
    · by_cases hd : d ∈ ds
      · simp [addUnique, hd] at hmem
        exact Or.inl hmem
      · simp [addUnique, hd] at hmem
        rcases hmem with hmem | hmem
        · exact Or.inl hmem
        · exact Or.inr (by simp [hmem])
    · exact Or.inr (List.mem_cons_of_mem d hmem)

/-- C5: `getDomains` returns the first `limit` distinct hostnames of
HTTPS bookmarks in traversal order — so a tree with more than `limit`
distinct HTTPS hostnames yields exactly `limit` entries and a tree with
fewer yields exactly that many (`min`), duplicates are collapsed
(`Nodup`), non-HTTPS URLs are excluded (every result entry is an HTTPS
hostname of the tree), and the spec's worked example evaluates to the
two-element set. -/
theorem getDomains_bounds (b : BNode) (limit : Nat) :
    (getDomains limit b []).length = min limit (dedupAcc [] (httpsHosts b)).length ∧
    (getDomains limit b []).Nodup ∧
    (∀ d, d ∈ getDomains limit b [] → d ∈ httpsHosts b) ∧
    getDomains 10 exampleTree [] = ["a.com", "c.com"] := by
  have hchar : getDomains limit b [] = (dedupAcc [] (httpsHosts b)).take limit := by
    rw [getDomains_eq_foldAdd, foldAdd_eq_take _ _ _ (by simp)]
  refine ⟨?_, ?_, ?_, by decide⟩
  · rw [hchar, List.length_take]
  · rw [hchar]
    exact List.Nodup.sublist (List.take_sublist _ _) (dedupAcc_nodup [] _ List.nodup_nil)
  · intro d hd
    rw [hchar] at hd
    have hmem := List.take_subset _ _ hd
    rcases dedupAcc_mem _ _ _ hmem with h0 | h1
    · cases h0
    · exact h1

/-- C5 witness: the bounds theorem applied to the worked-example tree,
with the membership hypothesis discharged at the concrete entry
`a.com`. -/
theorem getDomains_bounds_witness :
    "a.com" ∈ getDomains 10 exampleTree [] ∧ "a.com" ∈ httpsHosts exampleTree :=
  ⟨by decide, (getDomains_bounds exampleTree 10).2.2.1 "a.com" (by decide)⟩

/-- C6: `getIconUrl` is deterministic — its output depends only on the
extension id and the (domain, size) pair, so two hosts agreeing on the
extension id but differing in all ambient state (randomness, clock,
cache contents) produce byte-identical URLs. -/
theorem getIconUrl_deterministic (h1 h2 : Host) (size : Nat) (domain : String)
    (he : h1.extensionId = h2.extensionId) :
    getIconUrl h1.extensionId size domain = getIconUrl h2.extensionId size domain := by
  rw [he]

/-- C6 witness: the determinism theorem applied to two concrete hosts
differing in randomness, clock and favicon cache. -/
theorem getIconUrl_deterministic_witness :
    hostA.extensionId = hostB.extensionId ∧
    getIconUrl hostA.extensionId 16 "google.com" =
      getIconUrl hostB.extensionId 16 "google.com" :=
  ⟨rfl, getIconUrl_deterministic hostA hostB 16 "google.com" rfl⟩
